import Mathlib

/-!
Shallow embedding of the PreloadJS single-item network loader core:
`AbstractLoader` (src/src/preloadjs/AbstractLoader.js) and the XHR-based
item loader `XHRLoader` (src/unnamed/part_000).

The JavaScript code is single-threaded and event driven: a loader holds
mutable state, the hosting environment delivers transport events
(loadstart, progress, abort, error, timeout, load, readystatechange), a
manual `setTimeout` timer emulates timeouts for level-1 transports, and
handlers translate those events into outward notifications (loadStart,
progress, complete, error).  We embed this as explicit state passing:
every handler is a function `State → Out` where `Out` carries the updated
state, the list of outward notifications emitted during the call, and an
optional uncaught JavaScript fault (a thrown `TypeError` escaping the
loader, e.g. a property assignment on a `null` request).

Host primitives that are not part of the repository (the DOM XML parser
and the `eval`-based JSON parse) are treated as environment parameters:
`_parseXML` is modelled as an opaque constructor recording its inputs,
and JSON parsing is an arbitrary function `parseJson` supplied by an
`Env`, with `none` meaning the `eval` threw (parse failure).
-/

namespace PreloadJS

/-- Item content kinds recognised by `_generateTag`
(`createjs.PreloadJS.IMAGE`, `JAVASCRIPT`, `CSS`, `XML`, `SVG`, `JSON`,
`TEXT`, `BINARY`); `other` stands for any unrecognised `type` value,
which falls through the `switch` to the default passthrough. -/
inductive IType where
  | image
  | javascript
  | css
  | xml
  | svg
  | json
  | text
  | binary
  | other
deriving DecidableEq, Repr

/-- The manifest item handed to the loader (`file` / `this._item`).
`hasTag` records whether the caller supplied the `tag` placeholder that
the IMAGE / CSS / SVG branches of `_generateTag` mutate in place. -/
structure Item where
  type : IType
  src : String
  hasTag : Bool
deriving DecidableEq, Repr

/-- JavaScript values flowing through `_response` / `_rawResponse` and
the transport's response fields.  DOM products (tags, parsed XML
documents) are represented structurally by the data the source code
feeds into them. -/
inductive Resp where
  /-- JavaScript `null` (the prototype default of `_response` and
  `_rawResponse`). -/
  | null
  /-- A text payload (`responseText` or a string `response`). -/
  | text (s : String)
  /-- A binary payload (`arraybuffer` response). -/
  | binary (s : String)
  /-- Output of `_parseXML(source, mime)` (host `DOMParser`), recorded
  as an opaque document value tagged with its inputs. -/
  | xmlDoc (source : Resp) (mime : String)
  /-- The IMAGE branch result: the caller's tag with `src` assigned. -/
  | imageTag (src : String)
  /-- The JAVASCRIPT branch result: a fresh script tag whose `text` is
  the fetched payload. -/
  | scriptTag (content : Resp)
  /-- The CSS branch result: the caller's style tag with the fetched
  payload inserted as its style content. -/
  | cssTag (content : Resp)
  /-- The SVG branch result: the caller's tag with the parsed document
  element grafted in. -/
  | svgTag (doc : Resp)
  /-- A successfully `eval`-parsed JSON object, identified by its
  source text. -/
  | jsonVal (s : String)
deriving DecidableEq, Repr

/-- Access to a transport response field: some environments throw when
an inapplicable field is read (`responseText` / `responseXML` accesses
are wrapped in `try`/`catch` in `_getResponse`), some return `null`,
some return a value. -/
inductive Field (α : Type) where
  | throws
  | nullv
  | val (a : α)
deriving DecidableEq, Repr

/-- The transport handle (`this._request`): an `XMLHttpRequest`,
`XDomainRequest` or ActiveX object.  `readyState`, `status` and the
response fields are written by the hosting environment; `sendFails`
records whether `send()` throws synchronously (the case the
`try`/`catch` in `load()` guards: immediate 404s on cross-origin
requests). -/
structure Req where
  readyState : Nat
  status : Nat
  response : Resp
  responseText : Field String
  responseXML : Field Resp
  sendFails : Bool
deriving DecidableEq, Repr

/-- Outward notifications dispatched through the `AbstractLoader`
callback proxies (`onLoadStart`/`loadStart`, `onProgress`/`progress`,
`onComplete`/`complete`, `onError`/`error`).  The error notification
records whether a `source` field was attached (only the synchronous
send-failure path passes `{source:error}`). -/
inductive Note where
  | loadStart
  | progress (loaded total : Nat)
  | complete
  | error (hasSource : Bool)
deriving DecidableEq, Repr

/-- An uncaught JavaScript exception escaping a loader method. -/
inductive Fault where
  | typeError
deriving DecidableEq, Repr

/-- The mutable per-loader state: the `AbstractLoader` fields
(`loaded`, `canceled`, `progress`, `_item`) plus the `XHRLoader` fields
(`_request`, `_loadTimeout`, `_xhrLevel`, `_response`, `_rawResponse`)
and the handler wiring performed by `load()` / torn down by `_clean()`.
`contextAlive` models `window.createjs != null` (the global library
context probed by `_isCanceled`); `loadTimeoutActive` models a pending
manual `setTimeout`; `handlersAttached` models the `on...` handler
fields of the request being bound; `tagOnloadAttached` models the IMAGE
placeholder's `onload` being bound to `_handleTagReady`. -/
structure State where
  contextAlive : Bool
  loaded : Bool
  canceled : Bool
  progress : ℚ
  item : Item
  request : Option Req
  xhrLevel : Nat
  response : Resp
  rawResponse : Resp
  loadTimeoutActive : Bool
  handlersAttached : Bool
  tagOnloadAttached : Bool
deriving DecidableEq, Repr

/-- Result of one loader method or event-handler invocation: the new
state, the notifications emitted (in order), and an uncaught fault when
the JavaScript would throw out of the call. -/
structure Out where
  state : State
  notes : List Note
  fault : Option Fault
deriving DecidableEq, Repr

/-- A call that changes nothing and emits nothing. -/
def noop (s : State) : Out := ⟨s, [], none⟩

/-- Host behavior the loader delegates to: the result of
`eval("json="+text)` in the JSON branch of `_generateTag`; `none` means
the `eval` threw (unparsable body). -/
structure Env where
  parseJson : Resp → Option Resp

/-! ## AbstractLoader (src/src/preloadjs/AbstractLoader.js) -/

/-- `_isCanceled`: true when `window.createjs == null` (library context
torn down) or `this.canceled`. -/
def _isCanceled (s : State) : Bool :=
  !s.contextAlive || s.canceled

/-- `_sendLoadStart`: guarded dispatch of the loadStart notification. -/
def _sendLoadStart (s : State) : State × List Note :=
  if _isCanceled s then (s, [])
  else (s, [.loadStart])

/-- `_sendProgress` on a `{loaded, total}` pair (the only shape the XHR
loader passes): stores `loaded/total` as `this.progress`, clamped to 0
when the quotient is `NaN` (`0/0`) or `Infinity` (`loaded>0, total=0`),
then dispatches the pair.  Machine arithmetic is embedded as exact
rationals; the `total = 0` test captures exactly the IEEE
`NaN`/`Infinity` outcomes of the division for natural inputs. -/
def _sendProgress (s : State) (loaded total : Nat) : State × List Note :=
  if _isCanceled s then (s, [])
  else
    let p : ℚ := if total = 0 then 0 else (loaded : ℚ) / (total : ℚ)
    ({ s with progress := p }, [.progress loaded total])

/-- `_sendComplete`: guarded dispatch of the complete notification. -/
def _sendComplete (s : State) : State × List Note :=
  if _isCanceled s then (s, [])
  else (s, [.complete])

/-- `_sendError`: guarded dispatch of the error notification;
`hasSource` records whether the caller passed an event carrying a
`source` field. -/
def _sendError (s : State) (hasSource : Bool) : State × List Note :=
  if _isCanceled s then (s, [])
  else (s, [.error hasSource])

/-! ## XHRLoader (src/unnamed/part_000) -/

/-- `getResult`: the loaded and parsed content (`this._response`). -/
def getResult (s : State) : Resp := s.response

/-- `getRawResult`: the content before modification
(`this._rawResponse`); `null` when the content was not parsed. -/
def getRawResult (s : State) : Resp := s.rawResponse

/-- `_checkError`: `parseInt(this._request.status)` is 404 (Not Found)
or 0 (Not Loaded) means failure (`false`); every other status is
success (`true`).  The status is a number, so `parseInt` is the
identity on it. -/
def _checkError (r : Req) : Bool :=
  match r.status with
  | 404 => false
  | 0 => false
  | _ => true

/-- `_getResponse`: fallback chain over the transport's response
fields.  `this._response` if already set; else `request.response`; else
`request.responseText` (access guarded by `try`/`catch`); else
`request.responseXML` (guarded); else `null`. -/
def _getResponse (s : State) (r : Req) : Resp :=
  if s.response ≠ .null then s.response
  else if r.response ≠ .null then r.response
  else
    match r.responseText with
    | .val t => .text t
    | _ =>
      match r.responseXML with
      | .val x => x
      | _ => .null

/-- `_clean`: dispose the request.  First `clearTimeout(this._loadTimeout)`;
then the handler fields of `this._request` are set to `null` — when the
request is `null` (failed construction) this assignment throws a
`TypeError`, with the timer already cleared. -/
def _clean (s : State) : State × Option Fault :=
  let s := { s with loadTimeoutActive := false }
  match s.request with
  | none => (s, some .typeError)
  | some _ => ({ s with handlersAttached := false }, none)

/-- `_parseXML(text, type)`: host DOM parsing (DOMParser / MSXML),
modelled as an opaque document value recording its inputs. -/
def _parseXML (text : Resp) (mime : String) : Resp :=
  .xmlDoc text mime

/-- `_generateTag`: per-type result materialization.  Returns the new
state, the `isComplete` flag (`false` only for IMAGE, which waits for
the placeholder's own `onload`), and a fault when a required
caller-supplied `tag` is missing (property access on `undefined`
throws).  Branch by branch from the source `switch`:
IMAGE binds `tag.onload`, assigns `tag.src`, stores the raw response
and replaces the response with the tag; JAVASCRIPT builds a script tag
from the text; CSS inserts the tag into the head and fills it;
XML replaces the response with the parsed document (storing no raw
response); SVG parses, stores raw, grafts into the tag; JSON `eval`s —
on parse failure it returns immediately (raw response not stored,
response left as the unparsed text); every other type falls through
unchanged. -/
def _generateTag (env : Env) (s : State) : State × Bool × Option Fault :=
  match s.item.type with
  | .image =>
    if s.item.hasTag then
      ({ s with tagOnloadAttached := true
                rawResponse := s.response
                response := .imageTag s.item.src }, false, none)
    else (s, false, some .typeError)
  | .javascript =>
    ({ s with rawResponse := s.response
              response := .scriptTag s.response }, true, none)
  | .css =>
    if s.item.hasTag then
      ({ s with rawResponse := s.response
                response := .cssTag s.response }, true, none)
    else (s, true, some .typeError)
  | .xml =>
    ({ s with response := _parseXML s.response "text/xml" }, true, none)
  | .svg =>
    if s.item.hasTag then
      ({ s with rawResponse := s.response
                response := .svgTag (_parseXML s.response "image/svg+xml") },
       true, none)
    else (s, true, some .typeError)
  | .json =>
    match env.parseJson s.response with
    | none => (s, true, none)
    | some j =>
      ({ s with rawResponse := s.response, response := j }, true, none)
  | _ => (s, true, none)

/-- `_handleLoadStart`: `clearTimeout(this._loadTimeout)` then
`_sendLoadStart()`. -/
def _handleLoadStart (s : State) : Out :=
  let s := { s with loadTimeoutActive := false }
  let (s, ns) := _sendLoadStart s
  ⟨s, ns, none⟩

/-- `_handleProgress`: drop events reporting `loaded > 0` with
`total == 0` (unreliable total); forward every other pair unchanged to
`_sendProgress`. -/
def _handleProgress (s : State) (loaded total : Nat) : Out :=
  if loaded > 0 && total = 0 then noop s
  else
    let (s, ns) := _sendProgress s loaded total
    ⟨s, ns, none⟩

/-- `_handleAbort`: `_clean()` then `_sendError()`. -/
def _handleAbort (s : State) : Out :=
  match _clean s with
  | (s, some f) => ⟨s, [], some f⟩
  | (s, none) =>
    let (s, ns) := _sendError s false
    ⟨s, ns, none⟩

/-- `_handleError`: `_clean()` then `_sendError()`. -/
def _handleError (s : State) : Out :=
  match _clean s with
  | (s, some f) => ⟨s, [], some f⟩
  | (s, none) =>
    let (s, ns) := _sendError s false
    ⟨s, ns, none⟩

/-- `_handleTimeout`: `_clean()` then `_sendError()` (fired by the
request's native `ontimeout` or by the manual `setTimeout`). -/
def _handleTimeout (s : State) : Out :=
  match _clean s with
  | (s, some f) => ⟨s, [], some f⟩
  | (s, none) =>
    let (s, ns) := _sendError s false
    ⟨s, ns, none⟩

/-- `_handleLoad`: the single completion handler, called by the native
`onload` event or by a ready-state change reaching 4.  Only the first
call is processed (`if (this.loaded) return`).  It then checks the
status, routes failures to `_handleError`, extracts the response,
cleans up, materializes the per-type result, and dispatches complete
when materialization reports done. -/
def _handleLoad (env : Env) (s : State) : Out :=
  if s.loaded then noop s
  else
    let s := { s with loaded := true }
    match s.request with
    | none => ⟨s, [], some .typeError⟩
    | some r =>
      if !_checkError r then _handleError s
      else
        let s := { s with response := _getResponse s r }
        match _clean s with
        | (s, some f) => ⟨s, [], some f⟩
        | (s, none) =>
          match _generateTag env s with
          | (s, _, some f) => ⟨s, [], some f⟩
          | (s, isComplete, none) =>
            if isComplete then
              let (s, ns) := _sendComplete s
              ⟨s, ns, none⟩
            else ⟨s, [], none⟩

/-- `_handleReadyStateChange`: treat `readyState == 4` as an alternate
completion trigger for environments without a dedicated `onload`. -/
def _handleReadyStateChange (env : Env) (s : State) : Out :=
  match s.request with
  | none => ⟨s, [], some .typeError⟩
  | some r =>
    if r.readyState = 4 then _handleLoad env s
    else noop s

/-- `_handleTagReady`: the IMAGE placeholder finished loading;
dispatch complete. -/
def _handleTagReady (s : State) : Out :=
  let (s, ns) := _sendComplete s
  ⟨s, ns, none⟩

/-- `cancel`: set the sticky `canceled` flag first (so any
abort-triggered callback is already suppressed), release the request's
resources via `_clean`, then ask the transport to abort (the abort has
no further observable effect here: the handlers were just cleared). -/
def cancel (s : State) : Out :=
  let s := { s with canceled := true }
  match _clean s with
  | (s, some f) => ⟨s, [], some f⟩
  | (s, none) => ⟨s, [], none⟩

/-- `load`: begin the fetch.  A `null` request (failed construction) is
routed to `_handleError`.  Otherwise the event handlers are bound, a
manual timeout timer is installed when the transport is level 1, and
`send()` is issued inside `try`/`catch` — a synchronous send failure is
converted to `_sendError({source:error})` (note: without clearing the
just-installed timer). -/
def load (s : State) : Out :=
  match s.request with
  | none => _handleError s
  | some r =>
    let s := { s with handlersAttached := true }
    let s := if s.xhrLevel = 1 then { s with loadTimeoutActive := true } else s
    if r.sendFails then
      let (s, ns) := _sendError s true
      ⟨s, ns, none⟩
    else ⟨s, [], none⟩

/-- Environment capabilities probed by `_createXHR`: whether the load
is cross-domain (the anchor-element host/port/protocol comparison),
which request constructors exist (`XDomainRequest`, `XMLHttpRequest`,
the three ActiveX fallbacks), whether the constructed request exposes a
string `responseType` (the level-2 capability test), and the transport
the environment would hand back. -/
structure Caps where
  crossdomain : Bool
  hasXDomainRequest : Bool
  hasXMLHttpRequest : Bool
  hasActiveX60 : Bool
  hasActiveX30 : Bool
  hasActiveX : Bool
  responseTypeIsString : Bool
  transport : Req

/-- `_createXHR`: pick a transport.  Cross-domain loads prefer
`XDomainRequest` when present; else `XMLHttpRequest`; else the
descending ActiveX chain; when everything is exhausted return `false`
leaving `this._request` unset.  On success the XHR level is detected
(`typeof req.responseType === "string"` means level 2) and the request
stored.  (The MIME override for TEXT, the Origin header for legacy
cross-domain requests and the `arraybuffer` response type for binary
loads configure the network side and have no loader-visible state.) -/
def _createXHR (caps : Caps) (s : State) : State × Bool :=
  let ctorOk :=
    if caps.crossdomain && caps.hasXDomainRequest then true
    else if caps.hasXMLHttpRequest then true
    else caps.hasActiveX60 || caps.hasActiveX30 || caps.hasActiveX
  if ctorOk then
    ({ s with xhrLevel := if caps.responseTypeIsString then 2 else 1
              request := some caps.transport }, true)
  else (s, false)

/-- `init(item)`: store the item and attempt to build the request;
construction failure is silent (`//TODO: Throw error?`). -/
def init (caps : Caps) (item : Item) (s : State) : State :=
  let s := { s with item := item }
  (_createXHR caps s).1

/-- The prototype defaults of a freshly constructed loader (before
`init` runs): nothing loaded, nothing canceled, progress 0, no request,
level 1, `null` responses, nothing wired. -/
def freshState (contextAlive : Bool) (item : Item) : State :=
  { contextAlive := contextAlive
    loaded := false
    canceled := false
    progress := 0
    item := item
    request := none
    xhrLevel := 1
    response := .null
    rawResponse := .null
    loadTimeoutActive := false
    handlersAttached := false
    tagOnloadAttached := false }

/-! ## Event delivery

The hosting environment drives the loader after `load()` through the
handler fields bound on the request and through the manual timer.  An
event only reaches its handler while the handlers are attached (after
`_clean` the fields are `null` and the event is dropped by the
browser); the manual timer callback only runs while the timeout is
pending (`clearTimeout` cancels it); the IMAGE placeholder's ready
signal only fires once its `onload` was bound. -/

/-- Externally delivered events: the transport lifecycle events, a
ready-state transition (the transport updates `readyState` to `n`, then
the bound handler observes it), the manual timer expiring, and the
IMAGE placeholder's ready signal. -/
inductive Ev where
  | loadstart
  | progress (loaded total : Nat)
  | abort
  | error
  | timeoutNative
  | load
  | readyStateChange (n : Nat)
  | timerFires
  | tagReady
deriving DecidableEq, Repr

/-- The transport mutates its own `readyState` before the handler
observes it. -/
def setReadyState (s : State) (n : Nat) : State :=
  { s with request := s.request.map fun r => { r with readyState := n } }

/-- Deliver one event to the loader. -/
def step (env : Env) (s : State) (e : Ev) : Out :=
  match e with
  | .loadstart => if s.handlersAttached then _handleLoadStart s else noop s
  | .progress loaded total =>
    if s.handlersAttached then _handleProgress s loaded total else noop s
  | .abort => if s.handlersAttached then _handleAbort s else noop s
  | .error => if s.handlersAttached then _handleError s else noop s
  | .timeoutNative => if s.handlersAttached then _handleTimeout s else noop s
  | .load => if s.handlersAttached then _handleLoad env s else noop s
  | .readyStateChange n =>
    let s := setReadyState s n
    if s.handlersAttached then _handleReadyStateChange env s else noop s
  | .timerFires => if s.loadTimeoutActive then _handleTimeout s else noop s
  | .tagReady => if s.tagOnloadAttached then _handleTagReady s else noop s

/-- Deliver a list of events in order, accumulating notifications; an
uncaught fault aborts the run (the remaining events are not modelled
past a thrown handler, and no theorem below depends on what would
follow one). -/
def run (env : Env) (s : State) : List Ev → Out
  | [] => noop s
  | e :: evs =>
    let o := step env s e
    match o.fault with
    | some f => ⟨o.state, o.notes, some f⟩
    | none =>
      let o2 := run env o.state evs
      ⟨o2.state, o.notes ++ o2.notes, o2.fault⟩

/-- Notifications counting: completes in a note list. -/
def countComplete (ns : List Note) : Nat :=
  ns.count .complete

/-- Notifications counting: errors (with or without `source`). -/
def countError (ns : List Note) : Nat :=
  (ns.filter fun n => match n with | .error _ => true | _ => false).length

/-- A loader whose wiring has been torn down: no transport handlers
bound, no pending manual timer, no IMAGE placeholder callback.  Such a
loader can no longer be reached by any environment event. -/
def inert (s : State) : Prop :=
  s.handlersAttached = false ∧ s.loadTimeoutActive = false ∧
    s.tagOnloadAttached = false

/-! ## Frame and suppression lemmas for the notification primitives -/

lemma sendLoadStart_spec (s : State) :
    (_sendLoadStart s).1 = s ∧
      (_isCanceled s = true → (_sendLoadStart s).2 = []) ∧
      (_isCanceled s = false → (_sendLoadStart s).2 = [.loadStart]) := by
  unfold _sendLoadStart
  cases hc : _isCanceled s <;> simp [hc]

lemma sendProgress_spec (s : State) (l t : Nat) :
    ((_sendProgress s l t).1.canceled = s.canceled ∧
      (_sendProgress s l t).1.contextAlive = s.contextAlive ∧
      (_sendProgress s l t).1.loaded = s.loaded ∧
      (_sendProgress s l t).1.loadTimeoutActive = s.loadTimeoutActive ∧
      (_sendProgress s l t).1.handlersAttached = s.handlersAttached ∧
      (_sendProgress s l t).1.tagOnloadAttached = s.tagOnloadAttached) ∧
      (_isCanceled s = true → (_sendProgress s l t).2 = []) ∧
      (_isCanceled s = false → (_sendProgress s l t).2 = [.progress l t]) := by
  unfold _sendProgress
  cases hc : _isCanceled s <;> simp [hc]

lemma sendComplete_spec (s : State) :
    (_sendComplete s).1 = s ∧
      (_isCanceled s = true → (_sendComplete s).2 = []) ∧
      (_isCanceled s = false → (_sendComplete s).2 = [.complete]) := by
  unfold _sendComplete
  cases hc : _isCanceled s <;> simp [hc]

lemma sendError_spec (s : State) (b : Bool) :
    (_sendError s b).1 = s ∧
      (_isCanceled s = true → (_sendError s b).2 = []) ∧
      (_isCanceled s = false → (_sendError s b).2 = [.error b]) := by
  unfold _sendError
  cases hc : _isCanceled s <;> simp [hc]

lemma clean_spec (s : State) :
    ((_clean s).1.canceled = s.canceled) ∧
      ((_clean s).1.contextAlive = s.contextAlive) ∧
      ((_clean s).1.loadTimeoutActive = false) ∧
      ((_clean s).1.loaded = s.loaded) ∧
      ((_clean s).1.tagOnloadAttached = s.tagOnloadAttached) := by
  unfold _clean
  cases hr : s.request <;> simp [hr]

/-! ## Per-handler spec lemmas: frame facts, timer clearing and
notification suppression under cancellation -/

lemma handleLoadStart_spec (s : State) :
    ((_handleLoadStart s).state.canceled = s.canceled) ∧
      ((_handleLoadStart s).state.contextAlive = s.contextAlive) ∧
      ((_handleLoadStart s).state.loadTimeoutActive = false) ∧
      ((_handleLoadStart s).state.handlersAttached = s.handlersAttached) ∧
      ((_handleLoadStart s).state.tagOnloadAttached = s.tagOnloadAttached) ∧
      ((_handleLoadStart s).fault = none) ∧
      (_isCanceled s = true → (_handleLoadStart s).notes = []) := by
  unfold _handleLoadStart _sendLoadStart _isCanceled
  cases ha : s.contextAlive <;> cases hc : s.canceled <;> simp [ha, hc]

lemma handleProgress_spec (s : State) (l t : Nat) :
    ((_handleProgress s l t).state.canceled = s.canceled) ∧
      ((_handleProgress s l t).state.contextAlive = s.contextAlive) ∧
      ((_handleProgress s l t).state.loadTimeoutActive = s.loadTimeoutActive) ∧
      ((_handleProgress s l t).state.handlersAttached = s.handlersAttached) ∧
      ((_handleProgress s l t).state.tagOnloadAttached = s.tagOnloadAttached) ∧
      ((_handleProgress s l t).fault = none) ∧
      (_isCanceled s = true → (_handleProgress s l t).notes = []) := by
  unfold _handleProgress _sendProgress _isCanceled noop
  split
  · simp
  · cases ha : s.contextAlive <;> cases hc : s.canceled <;> simp [ha, hc]

lemma handleAbort_spec (s : State) :
    ((_handleAbort s).state.canceled = s.canceled) ∧
      ((_handleAbort s).state.contextAlive = s.contextAlive) ∧
      ((_handleAbort s).state.loadTimeoutActive = false) ∧
      ((_handleAbort s).state.tagOnloadAttached = s.tagOnloadAttached) ∧
      (_isCanceled s = true → (_handleAbort s).notes = []) := by
  unfold _handleAbort _clean _sendError _isCanceled
  cases hr : s.request <;> cases ha : s.contextAlive <;> cases hc : s.canceled <;>
    simp [hr, ha, hc]

lemma handleError_spec (s : State) :
    ((_handleError s).state.canceled = s.canceled) ∧
      ((_handleError s).state.contextAlive = s.contextAlive) ∧
      ((_handleError s).state.loadTimeoutActive = false) ∧
      ((_handleError s).state.tagOnloadAttached = s.tagOnloadAttached) ∧
      (_isCanceled s = true → (_handleError s).notes = []) := by
  unfold _handleError _clean _sendError _isCanceled
  cases hr : s.request <;> cases ha : s.contextAlive <;> cases hc : s.canceled <;>
    simp [hr, ha, hc]

lemma handleTimeout_spec (s : State) :
    ((_handleTimeout s).state.canceled = s.canceled) ∧
      ((_handleTimeout s).state.contextAlive = s.contextAlive) ∧
      ((_handleTimeout s).state.loadTimeoutActive = false) ∧
      ((_handleTimeout s).state.tagOnloadAttached = s.tagOnloadAttached) ∧
      (_isCanceled s = true → (_handleTimeout s).notes = []) := by
  unfold _handleTimeout _clean _sendError _isCanceled
  cases hr : s.request <;> cases ha : s.contextAlive <;> cases hc : s.canceled <;>
    simp [hr, ha, hc]

lemma handleTagReady_spec (s : State) :
    ((_handleTagReady s).state = s) ∧
      (_isCanceled s = true → (_handleTagReady s).notes = []) := by
  unfold _handleTagReady _sendComplete
  cases hc : _isCanceled s <;> simp [hc]

lemma generateTag_spec (env : Env) (s : State) :
    ((_generateTag env s).1.canceled = s.canceled) ∧
      ((_generateTag env s).1.contextAlive = s.contextAlive) ∧
      ((_generateTag env s).1.loadTimeoutActive = s.loadTimeoutActive) ∧
      ((_generateTag env s).1.handlersAttached = s.handlersAttached) ∧
      ((_generateTag env s).1.loaded = s.loaded) := by
  unfold _generateTag
  cases ht : s.item.type <;> simp [ht]
  · split <;> simp
  · split <;> simp
  · split <;> simp
  · cases env.parseJson s.response <;> simp

lemma generateTag_frame (env : Env) (s s' : State) (b : Bool) (f : Option Fault)
    (hg : _generateTag env s = (s', b, f)) :
    s'.canceled = s.canceled ∧ s'.contextAlive = s.contextAlive ∧
      s'.loadTimeoutActive = s.loadTimeoutActive ∧
      s'.handlersAttached = s.handlersAttached ∧ s'.loaded = s.loaded := by
  have h := generateTag_spec env s
  rw [hg] at h
  exact h

lemma handleLoad_spec (env : Env) (s : State) :
    ((_handleLoad env s).state.canceled = s.canceled) ∧
      ((_handleLoad env s).state.contextAlive = s.contextAlive) ∧
      ((_handleLoad env s).state.loadTimeoutActive = true →
        s.loadTimeoutActive = true) ∧
      (_isCanceled s = true → (_handleLoad env s).notes = []) := by
  unfold _handleLoad noop
  cases hl : s.loaded <;> simp [hl]
  cases hr : s.request <;> simp [hr]
  case false.some r =>
  cases hce : _checkError r <;> simp [hce]
  case false =>
    have h := handleError_spec { s with loaded := true, request := some r }
    refine ⟨h.1, h.2.1, ?_, ?_⟩
    · rw [h.2.2.1]; simp
    · intro hcan
      apply h.2.2.2.2
      simpa [_isCanceled] using hcan
  case true =>
    simp only [_clean]
    split
    case h_1 s4 b f hg =>
      have h := generateTag_frame env _ _ _ _ hg
      simp at h
      exact ⟨h.1, h.2.1, fun hh => by simp [h.2.2.1] at hh, fun _ => rfl⟩
    case h_2 s4 b hg =>
      have h := generateTag_frame env _ _ _ _ hg
      simp at h
      cases hb : b <;> simp [hb]
      · exact ⟨h.1, h.2.1, fun hh => by simp [h.2.2.1] at hh⟩
      · rcases hp : _sendComplete s4 with ⟨s5, ns5⟩
        have hsc := sendComplete_spec s4
        rw [hp] at hsc
        have hs5 : s5 = s4 := hsc.1
        have hns : _isCanceled s4 = true → ns5 = [] := hsc.2.1
        simp [hp]
        refine ⟨?_, ?_, ?_, ?_⟩
        · rw [hs5, h.1]
        · rw [hs5, h.2.1]
        · rw [hs5, h.2.2.1]; simp
        · intro hcan
          apply hns
          simp [_isCanceled, h.1, h.2.1]
          simp [_isCanceled] at hcan
          exact hcan

lemma handleReadyStateChange_spec (env : Env) (s : State) :
    ((_handleReadyStateChange env s).state.canceled = s.canceled) ∧
      ((_handleReadyStateChange env s).state.contextAlive = s.contextAlive) ∧
      ((_handleReadyStateChange env s).state.loadTimeoutActive = true →
        s.loadTimeoutActive = true) ∧
      (_isCanceled s = true → (_handleReadyStateChange env s).notes = []) := by
  unfold _handleReadyStateChange noop
  cases hr : s.request <;> simp [hr]
  split
  · exact handleLoad_spec env s
  · simp

lemma setReadyState_spec (s : State) (n : Nat) :
    (setReadyState s n).canceled = s.canceled ∧
      (setReadyState s n).contextAlive = s.contextAlive ∧
      (setReadyState s n).handlersAttached = s.handlersAttached ∧
      (setReadyState s n).loadTimeoutActive = s.loadTimeoutActive ∧
      (setReadyState s n).tagOnloadAttached = s.tagOnloadAttached ∧
      _isCanceled (setReadyState s n) = _isCanceled s := by
  unfold setReadyState _isCanceled
  simp

lemma step_spec (env : Env) (s : State) (e : Ev) :
    ((step env s e).state.canceled = s.canceled) ∧
      ((step env s e).state.contextAlive = s.contextAlive) ∧
      ((step env s e).state.loadTimeoutActive = true →
        s.loadTimeoutActive = true) ∧
      (_isCanceled s = true → (step env s e).notes = []) := by
  cases e with
  | loadstart =>
    simp only [step]
    split
    · have h := handleLoadStart_spec s
      exact ⟨h.1, h.2.1, (fun hh => by rw [h.2.2.1] at hh; cases hh), h.2.2.2.2.2.2⟩
    · exact ⟨rfl, rfl, fun hh => hh, fun _ => rfl⟩
  | progress l t =>
    simp only [step]
    split
    · have h := handleProgress_spec s l t
      exact ⟨h.1, h.2.1, (fun hh => by rw [h.2.2.1] at hh; exact hh),
        h.2.2.2.2.2.2⟩
    · exact ⟨rfl, rfl, fun hh => hh, fun _ => rfl⟩
  | abort =>
    simp only [step]
    split
    · have h := handleAbort_spec s
      exact ⟨h.1, h.2.1, (fun hh => by rw [h.2.2.1] at hh; cases hh), h.2.2.2.2⟩
    · exact ⟨rfl, rfl, fun hh => hh, fun _ => rfl⟩
  | error =>
    simp only [step]
    split
    · have h := handleError_spec s
      exact ⟨h.1, h.2.1, (fun hh => by rw [h.2.2.1] at hh; cases hh), h.2.2.2.2⟩
    · exact ⟨rfl, rfl, fun hh => hh, fun _ => rfl⟩
  | timeoutNative =>
    simp only [step]
    split
    · have h := handleTimeout_spec s
      exact ⟨h.1, h.2.1, (fun hh => by rw [h.2.2.1] at hh; cases hh), h.2.2.2.2⟩
    · exact ⟨rfl, rfl, fun hh => hh, fun _ => rfl⟩
  | load =>
    simp only [step]
    split
    · exact handleLoad_spec env s
    · exact ⟨rfl, rfl, fun hh => hh, fun _ => rfl⟩
  | readyStateChange n =>
    simp only [step]
    have hs := setReadyState_spec s n
    split
    · have h := handleReadyStateChange_spec env (setReadyState s n)
      refine ⟨?_, ?_, ?_, ?_⟩
      · rw [h.1, hs.1]
      · rw [h.2.1, hs.2.1]
      · intro hh
        rw [← hs.2.2.2.1]
        exact h.2.2.1 hh
      · intro hcan
        apply h.2.2.2
        rw [hs.2.2.2.2.2]
        exact hcan
    · exact ⟨hs.1, hs.2.1, (fun hh => by rw [← hs.2.2.2.1]; exact hh),
        fun _ => rfl⟩
  | timerFires =>
    simp only [step]
    split
    · have h := handleTimeout_spec s
      exact ⟨h.1, h.2.1, (fun hh => by rw [h.2.2.1] at hh; cases hh), h.2.2.2.2⟩
    · exact ⟨rfl, rfl, fun hh => hh, fun _ => rfl⟩
  | tagReady =>
    simp only [step]
    split
    · have h := handleTagReady_spec s
      exact ⟨by rw [h.1], by rw [h.1], (fun hh => by rw [h.1] at hh; exact hh),
        h.2⟩
    · exact ⟨rfl, rfl, fun hh => hh, fun _ => rfl⟩

lemma isCanceled_step (env : Env) (s : State) (e : Ev) :
    _isCanceled (step env s e).state = _isCanceled s := by
  have h := step_spec env s e
  unfold _isCanceled
  rw [h.1, h.2.1]

/-- Once suppressed (canceled or context torn down), a loader emits no
notification on any sequence of environment events. -/
lemma run_notes_nil_of_canceled (env : Env) (evs : List Ev) (s : State)
    (h : _isCanceled s = true) : (run env s evs).notes = [] := by
  induction evs generalizing s with
  | nil => rfl
  | cons e evs ih =>
    unfold run
    have hstep := step_spec env s e
    have hnil := hstep.2.2.2 h
    have hnext : _isCanceled (step env s e).state = true := by
      rw [isCanceled_step env s e]; exact h
    cases hf : (step env s e).fault with
    | some f => simp [hf, hnil]
    | none => simp [hf, hnil]; exact ih _ hnext

/-- An inert loader ignores every event: nothing is emitted, no fault,
and it stays inert. -/
lemma step_inert (env : Env) (s : State) (e : Ev) (h : inert s) :
    (step env s e).notes = [] ∧ (step env s e).fault = none ∧
      inert (step env s e).state := by
  obtain ⟨hat, hti, htg⟩ := h
  cases e <;> simp only [step, hat, hti, htg] <;>
    simp [noop, inert, setReadyState, hat, hti, htg]

/-- An inert loader emits nothing and faults nowhere over any event
sequence. -/
lemma run_inert (env : Env) (evs : List Ev) (s : State) (h : inert s) :
    (run env s evs).notes = [] ∧ (run env s evs).fault = none := by
  induction evs generalizing s with
  | nil => exact ⟨rfl, rfl⟩
  | cons e evs ih =>
    have hs := step_inert env s e h
    have hrest := ih (step env s e).state hs.2.2
    unfold run
    simp [hs.1, hs.2.1, hrest.1, hrest.2]

/-- While the manual timer is not pending, a `timerFires` occurrence
anywhere in the event sequence is invisible: the timer callback was
`clearTimeout`-ed, and no transport event re-arms it. -/
lemma run_drop_timerFires (env : Env) (evs1 evs2 : List Ev) (s : State)
    (h : s.loadTimeoutActive = false) :
    run env s (evs1 ++ Ev.timerFires :: evs2) = run env s (evs1 ++ evs2) := by
  induction evs1 generalizing s with
  | nil =>
    simp only [List.nil_append]
    have hstep : step env s Ev.timerFires = noop s := by
      simp only [step, h]
      simp
    rw [run, hstep]
    rfl
  | cons e evs1 ih =>
    simp only [List.cons_append]
    unfold run
    cases hf : (step env s e).fault with
    | some f => simp [hf]
    | none =>
      have htmr : (step env s e).state.loadTimeoutActive = false := by
        by_contra hx
        have hx2 : (step env s e).state.loadTimeoutActive = true := by
          cases hv : (step env s e).state.loadTimeoutActive
          · exact absurd hv hx
          · rfl
        have := (step_spec env s e).2.2.1 hx2
        rw [h] at this
        cases this
      simp [hf, ih _ htmr]

/-- `_checkError` reports failure exactly for status 404 and status 0. -/
lemma checkError_false_iff (r : Req) :
    _checkError r = false ↔ (r.status = 404 ∨ r.status = 0) := by
  unfold _checkError
  split <;> simp_all

/-- On every item type except IMAGE (with the caller-supplied tag
present when CSS/SVG needs it), `_generateTag` reports completion, does
not fault, and leaves the placeholder callback wiring alone. -/
lemma generateTag_ok (env : Env) (s : State) (himg : s.item.type ≠ .image)
    (htag : (s.item.type = .css ∨ s.item.type = .svg) → s.item.hasTag = true) :
    (_generateTag env s).2.1 = true ∧ (_generateTag env s).2.2 = none ∧
      (_generateTag env s).1.tagOnloadAttached = s.tagOnloadAttached := by
  unfold _generateTag
  cases ht : s.item.type <;> simp [ht]
  · exact absurd ht himg
  · rw [htag (Or.inl ht)]
    simp
  · rw [htag (Or.inr ht)]
    simp
  · cases env.parseJson s.response <;> simp

/-- `_generateTag` results, phrased on a given result tuple. -/
lemma generateTag_ok_of_eq (env : Env) (s s' : State) (b : Bool)
    (f : Option Fault) (hg : _generateTag env s = (s', b, f))
    (himg : s.item.type ≠ .image)
    (htag : (s.item.type = .css ∨ s.item.type = .svg) → s.item.hasTag = true) :
    b = true ∧ f = none ∧ s'.tagOnloadAttached = s.tagOnloadAttached := by
  have h := generateTag_ok env s himg htag
  rw [hg] at h
  exact h

/-- Successful first completion: a not-yet-loaded, not-canceled loader
with a live context, a request whose status is neither 404 nor 0, and
an immediately-completing item type dispatches exactly one complete
notification and ends up fully torn down. -/
lemma handleLoad_success (env : Env) (s : State) (r : Req)
    (hl : s.loaded = false) (hr : s.request = some r)
    (hc : s.canceled = false) (ha : s.contextAlive = true)
    (hto : s.tagOnloadAttached = false)
    (h404 : r.status ≠ 404) (h0 : r.status ≠ 0)
    (himg : s.item.type ≠ .image)
    (htag : (s.item.type = .css ∨ s.item.type = .svg) → s.item.hasTag = true) :
    (_handleLoad env s).notes = [.complete] ∧ (_handleLoad env s).fault = none ∧
      inert (_handleLoad env s).state := by
  have hce : _checkError r = true := by
    cases hcv : _checkError r
    · rcases (checkError_false_iff r).1 hcv with hx | hx
      · exact absurd hx h404
      · exact absurd hx h0
    · rfl
  unfold _handleLoad
  simp only [hl, hr, hce]
  simp only [_clean]
  simp [hr]
  split
  case h_1 s4 b f hg =>
    have hok := generateTag_ok_of_eq env _ _ _ _ hg himg htag
    exact absurd hok.2.1 (by simp)
  case h_2 s4 b hg =>
    have hok := generateTag_ok_of_eq env _ _ _ _ hg himg htag
    have hfr := generateTag_frame env _ _ _ _ hg
    have hc4 : s4.canceled = s.canceled := hfr.1
    have ha4 : s4.contextAlive = s.contextAlive := hfr.2.1
    have ht4 : s4.loadTimeoutActive = false := hfr.2.2.1
    have hh4 : s4.handlersAttached = false := hfr.2.2.2.1
    have hto4 : s4.tagOnloadAttached = false := by
      rw [hok.2.2]; exact hto
    rcases hp : _sendComplete s4 with ⟨s5, ns5⟩
    have hsc := sendComplete_spec s4
    rw [hp] at hsc
    have hs5 : s5 = s4 := hsc.1
    have hcan4 : _isCanceled s4 = false := by
      simp [_isCanceled, hc4, ha4, hc, ha]
    have hns : ns5 = [.complete] := hsc.2.2 hcan4
    simp [hok.1, hp, hns, hs5, inert, ht4, hh4, hto4]

/-- Failing first completion: when the status is 404 or 0, the
completion handler routes to the error path — one error notification,
no complete, loader torn down. -/
lemma handleLoad_failure (env : Env) (s : State) (r : Req)
    (hl : s.loaded = false) (hr : s.request = some r)
    (hc : s.canceled = false) (ha : s.contextAlive = true)
    (hfail : r.status = 404 ∨ r.status = 0) :
    (_handleLoad env s).notes = [.error false] ∧
      (_handleLoad env s).fault = none ∧
      (_handleLoad env s).state.handlersAttached = false ∧
      (_handleLoad env s).state.loadTimeoutActive = false ∧
      (_handleLoad env s).state.tagOnloadAttached = s.tagOnloadAttached := by
  have hce : _checkError r = false := (checkError_false_iff r).2 hfail
  unfold _handleLoad
  simp only [hl, hce, hr]
  simp
  unfold _handleError _clean _sendError _isCanceled
  simp [hr, ha, hc]

/-- While handlers are bound, the native `onload` event reaches the
completion handler. -/
lemma step_load_attached (env : Env) (s : State)
    (hatt : s.handlersAttached = true) :
    step env s Ev.load = _handleLoad env s := by
  simp only [step, hatt]
  simp

/-- One-step unfolding of `run` when the first event does not fault. -/
lemma run_cons_of_fault_none (env : Env) (s : State) (e : Ev) (evs : List Ev)
    (hf : (step env s e).fault = none) :
    run env s (e :: evs) =
      ⟨(run env (step env s e).state evs).state,
        (step env s e).notes ++ (run env (step env s e).state evs).notes,
        (run env (step env s e).state evs).fault⟩ := by
  rw [run]
  simp [hf]

/-! ## Fixtures used to instantiate the claim theorems -/

/-- A parse environment in which no body parses as JSON. -/
def envNoParse : Env := ⟨fun _ => none⟩

/-- A plain TEXT item. -/
def itemText0 : Item := ⟨.text, "a.txt", false⟩

/-- A transport that completed with status 200 and a text response. -/
def req200 : Req :=
  { readyState := 4, status := 200, response := .text "hello"
    responseText := .nullv, responseXML := .nullv, sendFails := false }

/-- A loader mid-flight: request built, `load()` already wired the
handlers, nothing delivered yet. -/
def sText200 : State :=
  { freshState true itemText0 with request := some req200
                                   handlersAttached := true }

/-! ## Claim theorems -/

/-- C1.  For every load on which both a native completion event and a
ready-state-change completion signal (and any further redundant
events) are delivered, only the first invocation of the completion
handler is processed — it sets `loaded` and tears the wiring down — so
exactly one complete notification is dispatched for a successful
load. -/
theorem claim_C1 (env : Env) (s : State) (r : Req) (evs : List Ev)
    (hl : s.loaded = false) (hc : s.canceled = false)
    (ha : s.contextAlive = true) (hatt : s.handlersAttached = true)
    (hto : s.tagOnloadAttached = false) (hr : s.request = some r)
    (h404 : r.status ≠ 404) (h0 : r.status ≠ 0)
    (himg : s.item.type ≠ .image)
    (htag : (s.item.type = .css ∨ s.item.type = .svg) → s.item.hasTag = true) :
    countComplete (run env s (Ev.load :: evs)).notes = 1 := by
  have hmain := handleLoad_success env s r hl hr hc ha hto h404 h0 himg htag
  have hstep := step_load_attached env s hatt
  have hf : (step env s Ev.load).fault = none := by
    rw [hstep]; exact hmain.2.1
  have hrest := run_inert env evs (step env s Ev.load).state
    (by rw [hstep]; exact hmain.2.2)
  rw [run_cons_of_fault_none env s Ev.load evs hf]
  simp only [hstep] at hrest ⊢
  rw [hmain.1, hrest.1]
  rfl

/-- C1 witness: a concrete successful TEXT load that receives the
native completion event and then a redundant ready-state-4 change and
a second native completion event. -/
theorem claim_C1_witness :
    countComplete
      (run envNoParse sText200
        (Ev.load :: [Ev.readyStateChange 4, Ev.load])).notes = 1 :=
  claim_C1 envNoParse sText200 req200 [Ev.readyStateChange 4, Ev.load]
    rfl rfl rfl rfl rfl rfl (by decide) (by decide) (by decide) (by decide)

/-- The sticky cancel flag survives `cancel` even when `_clean` throws. -/
lemma cancel_sets_canceled (t : State) : (cancel t).state.canceled = true := by
  unfold cancel _clean
  cases hr : t.request <;> simp [hr]

/-- Event delivery never rewrites the `canceled` flag. -/
lemma run_preserves_canceled (env : Env) (evs : List Ev) (s : State) :
    (run env s evs).state.canceled = s.canceled := by
  induction evs generalizing s with
  | nil => rfl
  | cons e evs ih =>
    unfold run
    cases hf : (step env s e).fault with
    | some f => simp [hf, (step_spec env s e).1]
    | none => simp [hf, ih, (step_spec env s e).1]

/-- C2.  Each notification primitive is a guarded dispatch: with the
loader canceled or the global library context torn down, no
notification is emitted — and since nothing ever resets `canceled`, a
canceled loader emits nothing on any later event sequence, and a
loader on which `cancel()` was called emits nothing ever after. -/
theorem claim_C2 (env : Env) (s t : State) (evs evs2 : List Ev) (b : Bool)
    (l tot : Nat) (h : s.canceled = true ∨ s.contextAlive = false) :
    (_sendLoadStart s).2 = [] ∧ (_sendProgress s l tot).2 = [] ∧
      (_sendComplete s).2 = [] ∧ (_sendError s b).2 = [] ∧
      (run env s evs).notes = [] ∧
      (run env s evs).state.canceled = s.canceled ∧
      (run env (cancel t).state evs2).notes = [] := by
  have hcan : _isCanceled s = true := by
    unfold _isCanceled
    rcases h with h | h <;> simp [h]
  have hcant : _isCanceled (cancel t).state = true := by
    unfold _isCanceled
    simp [cancel_sets_canceled t]
  refine ⟨?_, ?_, ?_, ?_, ?_, ?_, ?_⟩
  · exact (sendLoadStart_spec s).2.1 hcan
  · exact (sendProgress_spec s l tot).2.1 hcan
  · exact (sendComplete_spec s).2.1 hcan
  · exact (sendError_spec s b).2.1 hcan
  · exact run_notes_nil_of_canceled env evs s hcan
  · exact run_preserves_canceled env evs s
  · exact run_notes_nil_of_canceled env evs2 (cancel t).state hcant

/-- C2 witness: a canceled concrete loader emits nothing on the
primitives nor across a whole event sequence, and a freshly canceled
loader stays silent. -/
theorem claim_C2_witness :
    (_sendLoadStart { sText200 with canceled := true }).2 = [] ∧
      (_sendProgress { sText200 with canceled := true } 1 2).2 = [] ∧
      (_sendComplete { sText200 with canceled := true }).2 = [] ∧
      (_sendError { sText200 with canceled := true } false).2 = [] ∧
      (run envNoParse { sText200 with canceled := true }
        [Ev.loadstart, Ev.load, Ev.timerFires]).notes = [] ∧
      (run envNoParse { sText200 with canceled := true }
        [Ev.loadstart, Ev.load, Ev.timerFires]).state.canceled =
        ({ sText200 with canceled := true } : State).canceled ∧
      (run envNoParse (cancel sText200).state [Ev.abort, Ev.load]).notes = [] :=
  claim_C2 envNoParse { sText200 with canceled := true } sText200
    [Ev.loadstart, Ev.load, Ev.timerFires] [Ev.abort, Ev.load] false 1 2
    (Or.inl rfl)

/-- An environment with no usable transport constructor at all. -/
def capsNoTransport : Caps :=
  { crossdomain := false, hasXDomainRequest := false
    hasXMLHttpRequest := false, hasActiveX60 := false
    hasActiveX30 := false, hasActiveX := false
    responseTypeIsString := false, transport := req200 }

/-- C3.  When no transport could be constructed, `init` leaves the
request `null`; `load()` then routes to `_handleError`, whose `_clean`
assigns a handler field on the `null` request and throws a `TypeError`
out of `load()` before `_sendError` ever runs: the caller gets a thrown
fault and zero error notifications, contrary to the documented
contract of a single error notification and no thrown fault. -/
theorem claim_C3 :
    (init capsNoTransport itemText0 (freshState true itemText0)).request =
        none ∧
      (load (init capsNoTransport itemText0
        (freshState true itemText0))).fault = some .typeError ∧
      (load (init capsNoTransport itemText0
        (freshState true itemText0))).notes = [] :=
  ⟨rfl, rfl, rfl⟩

/-- A transport that completed with HTTP status 404. -/
def req404 : Req := { req200 with status := 404 }

/-- A mid-flight loader whose transport reports status 404. -/
def sText404 : State :=
  { freshState true itemText0 with request := some req404
                                   handlersAttached := true }

/-- C5.  The completion handler classifies the load as failed exactly
when the status is 404 or 0; on such a failure it emits one error
notification, and no complete notification is ever dispatched, even if
further completion signals (e.g. a ready-state change) arrive
afterward. -/
theorem claim_C5 (env : Env) (s : State) (r : Req) (evs : List Ev)
    (hl : s.loaded = false) (hc : s.canceled = false)
    (ha : s.contextAlive = true) (hatt : s.handlersAttached = true)
    (hto : s.tagOnloadAttached = false) (hr : s.request = some r)
    (hfail : r.status = 404 ∨ r.status = 0) :
    (∀ r2 : Req, _checkError r2 = false ↔ (r2.status = 404 ∨ r2.status = 0)) ∧
      countError (run env s (Ev.load :: evs)).notes = 1 ∧
      countComplete (run env s (Ev.load :: evs)).notes = 0 := by
  have hmain := handleLoad_failure env s r hl hr hc ha hfail
  have hstep := step_load_attached env s hatt
  have hf : (step env s Ev.load).fault = none := by
    rw [hstep]; exact hmain.2.1
  have hinert : inert (step env s Ev.load).state := by
    rw [hstep]
    refine ⟨hmain.2.2.1, hmain.2.2.2.1, ?_⟩
    rw [hmain.2.2.2.2]
    exact hto
  have hrest := run_inert env evs (step env s Ev.load).state hinert
  refine ⟨checkError_false_iff, ?_, ?_⟩ <;>
    · rw [run_cons_of_fault_none env s Ev.load evs hf]
      simp only [hstep] at hrest ⊢
      rw [hmain.1, hrest.1]
      rfl

/-- C5 witness: a concrete 404 load followed by a redundant
ready-state-4 signal yields one error and no complete. -/
theorem claim_C5_witness :
    (∀ r2 : Req, _checkError r2 = false ↔ (r2.status = 404 ∨ r2.status = 0)) ∧
      countError (run envNoParse sText404
        (Ev.load :: [Ev.readyStateChange 4])).notes = 1 ∧
      countComplete (run envNoParse sText404
        (Ev.load :: [Ev.readyStateChange 4])).notes = 0 :=
  claim_C5 envNoParse sText404 req404 [Ev.readyStateChange 4]
    rfl rfl rfl rfl rfl rfl (Or.inl rfl)

/-- A transport whose `send()` throws synchronously. -/
def reqSendFail : Req := { req200 with sendFails := true }

/-- A fresh level-1 loader over a transport whose `send()` throws. -/
def sSendFail : State :=
  { freshState true itemText0 with request := some reqSendFail }

/-- C4 counterexample: on a level-1 transport whose `send()` throws
synchronously, `load()` emits an error from the `catch` but leaves the
just-installed manual timer running; when that timer fires, the
emulated timeout path emits a second error notification for the same
failed attempt. -/
theorem claim_C4_cex :
    (load sSendFail).state.loadTimeoutActive = true ∧
      countError ((load sSendFail).notes ++
        (run envNoParse (load sSendFail).state [Ev.timerFires]).notes) = 2 :=
  ⟨rfl, rfl⟩

/-- `cancel` always clears the manual load timer (via `_clean`, whose
`clearTimeout` runs before the request dereference). -/
lemma cancel_clears_timer (s : State) :
    (cancel s).state.loadTimeoutActive = false := by
  unfold cancel _clean
  cases hr : s.request <;> simp [hr]

/-- C4 (amended).  Every handler-driven terminal path — first
completion, abort, error, timeout, cancel — cancels the manual load
timer through `_clean`; only the synchronous send-failure `catch` in
`load()` bypasses `_clean`, which is what makes the counterexample
above possible. -/
theorem claim_C4 (env : Env) (s : State) (r : Req)
    (hreq : s.request = some r) (hl : s.loaded = false) :
    (_handleLoad env s).state.loadTimeoutActive = false ∧
      (_handleAbort s).state.loadTimeoutActive = false ∧
      (_handleError s).state.loadTimeoutActive = false ∧
      (_handleTimeout s).state.loadTimeoutActive = false ∧
      (cancel s).state.loadTimeoutActive = false := by
  refine ⟨?_, (handleAbort_spec s).2.2.1, (handleError_spec s).2.2.1,
    (handleTimeout_spec s).2.2.1, cancel_clears_timer s⟩
  unfold _handleLoad
  simp only [hl, hreq]
  cases hce : _checkError r <;> simp [hce]
  · exact (handleError_spec _).2.2.1
  · simp only [_clean]
    split
    case h_1 s4 b f hg =>
      exact (generateTag_frame env _ _ _ _ hg).2.2.1
    case h_2 s4 b hg =>
      have ht4 : s4.loadTimeoutActive = false :=
        (generateTag_frame env _ _ _ _ hg).2.2.1
      rcases hp : _sendComplete s4 with ⟨s5, ns5⟩
      have hsc := sendComplete_spec s4
      rw [hp] at hsc
      have hs5 : s5 = s4 := hsc.1
      cases hb : b <;> simp [hp, hs5, ht4]

/-- C4 witness: on a concrete mid-flight loader every handler-driven
terminal path leaves the timer cleared. -/
theorem claim_C4_witness :
    (_handleLoad envNoParse sText200).state.loadTimeoutActive = false ∧
      (_handleAbort sText200).state.loadTimeoutActive = false ∧
      (_handleError sText200).state.loadTimeoutActive = false ∧
      (_handleTimeout sText200).state.loadTimeoutActive = false ∧
      (cancel sText200).state.loadTimeoutActive = false :=
  claim_C4 envNoParse sText200 req200 rfl rfl

/-- An inert loader's stored results are frozen: no event rewrites
`_response` or `_rawResponse`. -/
lemma step_inert_resp (env : Env) (s : State) (e : Ev) (h : inert s) :
    (step env s e).state.response = s.response ∧
      (step env s e).state.rawResponse = s.rawResponse := by
  obtain ⟨hat, hti, htg⟩ := h
  cases e <;> simp only [step, hat, hti, htg] <;>
    simp [noop, setReadyState, hat, hti, htg]

/-- Result freezing extended over event sequences. -/
lemma run_inert_resp (env : Env) (evs : List Ev) (s : State) (h : inert s) :
    (run env s evs).state.response = s.response ∧
      (run env s evs).state.rawResponse = s.rawResponse := by
  induction evs generalizing s with
  | nil => exact ⟨rfl, rfl⟩
  | cons e evs ih =>
    have hs := step_inert env s e h
    have hsr := step_inert_resp env s e h
    have hrest := ih (step env s e).state hs.2.2
    unfold run
    simp [hs.2.1, hrest.1, hrest.2, hsr.1, hsr.2]

/-- Statuses other than 404 and 0 classify as success. -/
lemma checkError_true (r : Req) (h404 : r.status ≠ 404) (h0 : r.status ≠ 0) :
    _checkError r = true := by
  cases hcv : _checkError r
  · rcases (checkError_false_iff r).1 hcv with hx | hx
    · exact absurd hx h404
    · exact absurd hx h0
  · rfl

/-- JSON whose body fails to parse: the load still completes (one
complete notification), the stored response stays the unparsed text,
and the raw response is never written (stays `null` on a fresh
loader). -/
lemma handleLoad_json_parsefail (env : Env) (s : State) (r : Req)
    (body : String) (hl : s.loaded = false) (hr : s.request = some r)
    (hc : s.canceled = false) (ha : s.contextAlive = true)
    (hto : s.tagOnloadAttached = false)
    (h404 : r.status ≠ 404) (h0 : r.status ≠ 0)
    (htype : s.item.type = .json)
    (hresp : s.response = .null) (hraw : s.rawResponse = .null)
    (hrr : r.response = .text body)
    (hparse : env.parseJson (.text body) = none) :
    (_handleLoad env s).notes = [.complete] ∧
      (_handleLoad env s).fault = none ∧
      inert (_handleLoad env s).state ∧
      (_handleLoad env s).state.response = .text body ∧
      (_handleLoad env s).state.rawResponse = .null := by
  have hce : _checkError r = true := checkError_true r h404 h0
  unfold _handleLoad
  simp only [hl, hr, hce]
  simp [_getResponse, hresp, hrr, _clean, _generateTag, htype, hparse,
    _sendComplete, _isCanceled, ha, hc, inert, hto, hraw]

/-- A JSON item. -/
def itemJson0 : Item := ⟨.json, "a.json", false⟩

/-- The unparsable JSON body from the spec example. -/
def jsonBody : String := "\x7bnot valid json"

/-- A transport that delivered the unparsable JSON body. -/
def reqJson : Req := { req200 with response := .text jsonBody }

/-- A mid-flight JSON loader holding the unparsable body. -/
def sJson : State :=
  { freshState true itemJson0 with request := some reqJson
                                   handlersAttached := true }

/-- C6 counterexample: on the spec's own example body, the load
completes and `getResult` returns the literal unparsed text, but
`getRawResult` is `null`, not the literal text as the claim states: the
JSON branch returns from the parse-failure `catch` before it stores
`_rawResponse`. -/
theorem claim_C6_cex :
    (run envNoParse sJson [Ev.load]).notes = [.complete] ∧
      getResult (run envNoParse sJson [Ev.load]).state = .text jsonBody ∧
      getRawResult (run envNoParse sJson [Ev.load]).state = .null ∧
      getRawResult (run envNoParse sJson [Ev.load]).state ≠ .text jsonBody :=
  ⟨rfl, rfl, rfl, by decide⟩

/-- C6 (amended).  A JSON-type load whose fetched body fails to parse
still completes successfully (exactly the one complete notification,
no error), and afterwards the materialized result equals the literal
unparsed text while the raw result remains `null` on a fresh loader —
the raw payload is stored only when parsing succeeds. -/
theorem claim_C6 (env : Env) (s : State) (r : Req) (body : String)
    (evs : List Ev)
    (hl : s.loaded = false) (hc : s.canceled = false)
    (ha : s.contextAlive = true) (hatt : s.handlersAttached = true)
    (hto : s.tagOnloadAttached = false) (hr : s.request = some r)
    (h404 : r.status ≠ 404) (h0 : r.status ≠ 0)
    (htype : s.item.type = .json)
    (hresp : s.response = .null) (hraw : s.rawResponse = .null)
    (hrr : r.response = .text body)
    (hparse : env.parseJson (.text body) = none) :
    (run env s (Ev.load :: evs)).notes = [.complete] ∧
      getResult (run env s (Ev.load :: evs)).state = .text body ∧
      getRawResult (run env s (Ev.load :: evs)).state = .null := by
  have hmain := handleLoad_json_parsefail env s r body hl hr hc ha hto
    h404 h0 htype hresp hraw hrr hparse
  have hstep := step_load_attached env s hatt
  have hf : (step env s Ev.load).fault = none := by
    rw [hstep]; exact hmain.2.1
  have hinert : inert (step env s Ev.load).state := by
    rw [hstep]; exact hmain.2.2.1
  have hrest := run_inert env evs (step env s Ev.load).state hinert
  have hrestr := run_inert_resp env evs (step env s Ev.load).state hinert
  rw [run_cons_of_fault_none env s Ev.load evs hf]
  simp only [hstep] at hrest hrestr ⊢
  unfold getResult getRawResult
  rw [hmain.1, hrest.1, hrestr.1, hrestr.2, hmain.2.2.2.1, hmain.2.2.2.2]
  simp

/-- C6 witness: the amended claim at the spec's concrete example. -/
theorem claim_C6_witness :
    (run envNoParse sJson (Ev.load :: [Ev.readyStateChange 4])).notes =
        [.complete] ∧
      getResult
        (run envNoParse sJson (Ev.load :: [Ev.readyStateChange 4])).state =
        .text jsonBody ∧
      getRawResult
        (run envNoParse sJson (Ev.load :: [Ev.readyStateChange 4])).state =
        .null :=
  claim_C6 envNoParse sJson reqJson jsonBody [Ev.readyStateChange 4]
    rfl rfl rfl rfl rfl rfl (by decide) (by decide) rfl rfl rfl rfl rfl

/-- An XML item. -/
def itemXml0 : Item := ⟨.xml, "a.xml", false⟩

/-- A transport that delivered an XML body. -/
def reqXml : Req := { req200 with response := .text "<a/>" }

/-- A mid-flight XML loader. -/
def sXml : State :=
  { freshState true itemXml0 with request := some reqXml
                                  handlersAttached := true }

/-- C7.  The XML branch of `_generateTag` replaces the response with
the parsed document but — unlike every other replacing branch — never
stores the original payload in `_rawResponse`: after a completed XML
load the raw result is still `null`, although the library's own module
documentation lists XML among the types whose raw content can be
retrieved. -/
theorem claim_C7 :
    (run envNoParse sXml [Ev.load]).notes = [.complete] ∧
      getResult (run envNoParse sXml [Ev.load]).state =
        _parseXML (.text "<a/>") "text/xml" ∧
      getRawResult (run envNoParse sXml [Ev.load]).state = .null :=
  ⟨rfl, rfl, rfl⟩

/-- C8 counterexample: a `{loaded:2, total:1}` pair is stored as
progress 2, outside [0,1] — the code clamps `NaN`/`Infinity` to 0 but
never clamps quotients above 1. -/
theorem claim_C8_cex :
    (_sendProgress (freshState true itemText0) 2 1).1.progress = 2 ∧
      ¬((_sendProgress (freshState true itemText0) 2 1).1.progress ≤ 1) := by
  constructor
  · norm_num [_sendProgress, _isCanceled, freshState]
  · norm_num [_sendProgress, _isCanceled, freshState]

/-- C8 (amended).  After a non-suppressed `_sendProgress` with a
`{loaded, total}` pair, the stored progress is `loaded/total` clamped
to 0 when the quotient is not-a-number or infinite (`total = 0`); the
value lies in [0,1] whenever `loaded ≤ total`, but nothing clamps
quotients above 1 when `loaded > total`. -/
theorem claim_C8 (s : State) (l t : Nat) (h : _isCanceled s = false) :
    (_sendProgress s l t).1.progress =
        (if t = 0 then 0 else (l : ℚ) / t) ∧
      (l ≤ t → 0 ≤ (_sendProgress s l t).1.progress ∧
        (_sendProgress s l t).1.progress ≤ 1) := by
  unfold _sendProgress
  simp only [h]
  simp
  intro hlt
  by_cases ht : t = 0
  · simp [ht]
  · have ht0 : (0 : ℚ) < t := by
      exact_mod_cast Nat.pos_of_ne_zero ht
    simp [ht]
    constructor
    · positivity
    · rw [div_le_one ht0]
      exact_mod_cast hlt

/-- C8 witness: the amended claim at a concrete in-range pair. -/
theorem claim_C8_witness :
    (_sendProgress (freshState true itemText0) 1 2).1.progress =
        (if (2 : Nat) = 0 then 0 else ((1 : Nat) : ℚ) / (2 : Nat)) ∧
      ((1 : Nat) ≤ 2 → 0 ≤ (_sendProgress (freshState true itemText0) 1 2).1.progress ∧
        (_sendProgress (freshState true itemText0) 1 2).1.progress ≤ 1) :=
  claim_C8 (freshState true itemText0) 1 2 rfl

/-- C9.  A transport progress event reporting `loaded > 0` with
`total == 0` is dropped entirely (state untouched, nothing dispatched);
every other pair is forwarded unchanged to the base dispatch, which
(when not suppressed) emits exactly that pair. -/
theorem claim_C9 (s : State) (l t : Nat) :
    (l > 0 ∧ t = 0 → _handleProgress s l t = noop s) ∧
      (¬(l > 0 ∧ t = 0) →
        (_handleProgress s l t).state = (_sendProgress s l t).1 ∧
          (_handleProgress s l t).notes = (_sendProgress s l t).2 ∧
          (_handleProgress s l t).fault = none ∧
          (_isCanceled s = false →
            (_handleProgress s l t).notes = [.progress l t])) := by
  unfold _handleProgress
  constructor
  · rintro ⟨h1, h2⟩
    simp [h1, h2]
  · intro hn
    have hspec := sendProgress_spec s l t
    rcases hp : _sendProgress s l t with ⟨s2, ns2⟩
    rw [hp] at hspec
    simp [hn, hp]
    exact fun hc => hspec.2.2 hc

/-- C9 witness: the drop case and the forward case at concrete pairs
on a concrete live loader. -/
theorem claim_C9_witness :
    _handleProgress sText200 5 0 = noop sText200 ∧
      (_handleProgress sText200 5 10).notes = [.progress 5 10] :=
  ⟨(claim_C9 sText200 5 0).1 (by decide),
    ((claim_C9 sText200 5 10).2 (by decide)).2.2.2 rfl⟩

/-- C10.  `_handleLoadStart` clears the manual timer before anything
else, and no later event re-arms it: once the load-start event has been
processed, a `timerFires` occurrence anywhere later in the trace is
invisible — a load that stalls after load-start never receives an
emulated timeout. -/
theorem claim_C10 (env : Env) (s : State) (evs1 evs2 : List Ev)
    (hatt : s.handlersAttached = true) :
    run env s (Ev.loadstart :: (evs1 ++ Ev.timerFires :: evs2)) =
      run env s (Ev.loadstart :: (evs1 ++ evs2)) := by
  have hstep : step env s Ev.loadstart = _handleLoadStart s := by
    simp only [step, hatt]
    simp
  have hspec := handleLoadStart_spec s
  have hf : (step env s Ev.loadstart).fault = none := by
    rw [hstep]; exact hspec.2.2.2.2.2.1
  have htmr : (step env s Ev.loadstart).state.loadTimeoutActive = false := by
    rw [hstep]; exact hspec.2.2.1
  rw [run_cons_of_fault_none env s Ev.loadstart _ hf,
    run_cons_of_fault_none env s Ev.loadstart _ hf,
    run_drop_timerFires env evs1 evs2 _ htmr]

/-- C10 witness: on a concrete level-1 loader with the timer armed,
the trace with a late timer expiry equals the trace without it. -/
theorem claim_C10_witness :
    run envNoParse { sText200 with loadTimeoutActive := true }
        (Ev.loadstart :: ([Ev.progress 1 2] ++ Ev.timerFires :: [Ev.load])) =
      run envNoParse { sText200 with loadTimeoutActive := true }
        (Ev.loadstart :: ([Ev.progress 1 2] ++ [Ev.load])) :=
  claim_C10 envNoParse { sText200 with loadTimeoutActive := true }
    [Ev.progress 1 2] [Ev.load] rfl
